import Mathlib

/-!
Formal model of the VVI (Visit Value Index) scoring and classification engine.

The model is a shallow embedding of the two implementations in the repository:

* `src/app.py`, class `VVIAPIClient`: the local computation path
  (`_assess_local`, `tier_from_score`, `scenario_map`, the 16-entry
  `scenario_library`) and the API-with-fallback dispatcher (`assess`,
  `_assess_via_api`).
* `src/vvi-api/main.py`, class `VVICalculator` and endpoint `assess_vvi`:
  `calculate_metrics`, `calculate_scores`, `determine_tier`,
  `get_scenario_id`, the two-entry `SCENARIO_LIBRARY`, and the request
  validation performed by the pydantic models (`gt=0` on every numeric
  field).

Numbers are modelled as rationals.  Python's `round(x, d)` is modelled as
round-half-to-even on the exact rational value (`roundHalfEven`, `roundTo`).
A Python exception (ZeroDivisionError, ValueError, or a pydantic validation
rejection) is modelled by an `Option` result being `none`.
-/

set_option maxRecDepth 8000

namespace VVI

/-! ### Rounding: model of Python `round(x, d)` -/

/-- Round a rational to the nearest integer, ties to even (Python `round`). -/
def roundHalfEven (q : ℚ) : ℤ :=
  if q - ⌊q⌋ < 1/2 then ⌊q⌋
  else if 1/2 < q - ⌊q⌋ then ⌊q⌋ + 1
  else if ⌊q⌋ % 2 = 0 then ⌊q⌋ else ⌊q⌋ + 1

/-- Model of Python `round(q, d)`: round to `d` decimal places. -/
def roundTo (d : ℕ) (q : ℚ) : ℚ :=
  (roundHalfEven (q * 10 ^ d) : ℚ) / 10 ^ d

lemma roundHalfEven_sub_abs (q : ℚ) : |(roundHalfEven q : ℚ) - q| ≤ 1/2 := by
  have h0 : (⌊q⌋ : ℚ) ≤ q := Int.floor_le q
  have h1 : q < ⌊q⌋ + 1 := Int.lt_floor_add_one q
  unfold roundHalfEven
  split_ifs with ha hb hc <;> rw [abs_le] <;> push_cast <;> constructor <;> linarith

lemma roundTo_sub_abs (d : ℕ) (q : ℚ) : |roundTo d q - q| ≤ 1 / (2 * 10 ^ d) := by
  have h10 : (0:ℚ) < 10 ^ d := by positivity
  have key : roundTo d q - q = ((roundHalfEven (q * 10 ^ d) : ℚ) - q * 10 ^ d) / 10 ^ d := by
    unfold roundTo
    field_simp
    ring
  have hb := roundHalfEven_sub_abs (q * 10 ^ d)
  rw [key, abs_div, abs_of_pos h10, div_le_div_iff₀ h10 (by positivity)]
  nlinarith [abs_nonneg ((roundHalfEven (q * 10 ^ d) : ℚ) - q * 10 ^ d)]

lemma roundTo_eq_int_div (d : ℕ) (q : ℚ) :
    roundTo d q = (roundHalfEven (q * 10 ^ d) : ℚ) / 10 ^ d := rfl

lemma roundTo_zero (d : ℕ) : roundTo d 0 = 0 := by
  unfold roundTo roundHalfEven
  norm_num

/-! ### Tiers

`main.py` represents tiers by the `TierEnum` enumeration; `app.py` works
directly with the corresponding strings. -/

/-- `main.py` `TierEnum`. -/
inductive TierEnum
  | excellent
  | stable
  | atRisk
  | critical
deriving DecidableEq, Fintype, Repr

/-- The string value carried by each `TierEnum` member in `main.py`
(also the strings used directly by `app.py`). -/
def tierName : TierEnum → String
  | .excellent => "Excellent"
  | .stable => "Stable"
  | .atRisk => "At Risk"
  | .critical => "Critical"

/-- `main.py` `VVICalculator.determine_tier`. -/
def determine_tier (score : ℚ) : TierEnum :=
  if score ≥ 100 then .excellent
  else if score ≥ 95 then .stable
  else if score ≥ 90 then .atRisk
  else .critical

/-- `app.py` `tier_from_score` (nested helper of `_assess_local`). -/
def tier_from_score (score : ℚ) : String :=
  if score ≥ 100 then "Excellent"
  else if 95 ≤ score ∧ score < 100 then "Stable"
  else if 90 ≤ score ∧ score < 95 then "At Risk"
  else "Critical"

lemma tier_from_score_eq_tierName (s : ℚ) :
    tier_from_score s = tierName (determine_tier s) := by
  unfold tier_from_score determine_tier tierName
  split_ifs with h1 h2 h3 h4 h5 <;> first | rfl | simp_all

/-! ### Scenario ID maps -/

/-- `main.py` `VVICalculator.get_scenario_id`: the 16-entry dict keyed by
`TierEnum` pairs (the Python `.get` default `"S16"` is unreachable because
the dict covers all pairs). -/
def get_scenario_id (rf_tier lf_tier : TierEnum) : String :=
  match rf_tier, lf_tier with
  | .excellent, .excellent => "S01"
  | .excellent, .stable => "S02"
  | .excellent, .atRisk => "S03"
  | .excellent, .critical => "S04"
  | .stable, .excellent => "S05"
  | .stable, .stable => "S06"
  | .stable, .atRisk => "S07"
  | .stable, .critical => "S08"
  | .atRisk, .excellent => "S09"
  | .atRisk, .stable => "S10"
  | .atRisk, .atRisk => "S11"
  | .atRisk, .critical => "S12"
  | .critical, .excellent => "S13"
  | .critical, .stable => "S14"
  | .critical, .atRisk => "S15"
  | .critical, .critical => "S16"

/-- `app.py` `scenario_map` (the dict of string pairs inside
`_assess_local`) together with its `.get(..., "S16")` default. -/
def scenario_map (rf_tier lf_tier : String) : String :=
  match rf_tier, lf_tier with
  | "Excellent", "Excellent" => "S01"
  | "Excellent", "Stable" => "S02"
  | "Excellent", "At Risk" => "S03"
  | "Excellent", "Critical" => "S04"
  | "Stable", "Excellent" => "S05"
  | "Stable", "Stable" => "S06"
  | "Stable", "At Risk" => "S07"
  | "Stable", "Critical" => "S08"
  | "At Risk", "Excellent" => "S09"
  | "At Risk", "Stable" => "S10"
  | "At Risk", "At Risk" => "S11"
  | "At Risk", "Critical" => "S12"
  | "Critical", "Excellent" => "S13"
  | "Critical", "Stable" => "S14"
  | "Critical", "At Risk" => "S15"
  | "Critical", "Critical" => "S16"
  | _, _ => "S16"

lemma scenario_map_tierName (a b : TierEnum) :
    scenario_map (tierName a) (tierName b) = get_scenario_id a b := by
  cases a <;> cases b <;> rfl

/-- The 16 scenario IDs in row-major order over
[Excellent, Stable, At Risk, Critical] × [Excellent, Stable, At Risk, Critical]. -/
def scenarioIds : List String :=
  ["S01", "S02", "S03", "S04", "S05", "S06", "S07", "S08",
   "S09", "S10", "S11", "S12", "S13", "S14", "S15", "S16"]

/-- Row index of a tier in the order [Excellent, Stable, At Risk, Critical]. -/
def tierIdx : TierEnum → ℕ
  | .excellent => 0
  | .stable => 1
  | .atRisk => 2
  | .critical => 3

/-! ### Metrics and scores (`main.py` `VVICalculator`) -/

/-- Output record of `VVICalculator.calculate_metrics`. -/
structure CalculatedMetrics where
  nrpv : ℚ
  lcv : ℚ
  swb_pct : ℚ
deriving DecidableEq, Repr

/-- `main.py` `VVICalculator.calculate_metrics`.  The function divides by
`visit_volume` and by `net_revenue` without any guard; a zero denominator
raises a `ZeroDivisionError`, modelled as `none`. -/
def calculate_metrics (net_revenue : ℚ) (visit_volume : ℤ) (labor_cost : ℚ) :
    Option CalculatedMetrics :=
  if visit_volume = 0 then none else
  let nrpv := net_revenue / visit_volume
  let lcv := labor_cost / visit_volume
  if net_revenue = 0 then none else
  let swb_pct := labor_cost / net_revenue * 100
  some ⟨roundTo 2 nrpv, roundTo 2 lcv, roundTo 1 swb_pct⟩

/-- `main.py` `calculate_scores`: `rf_raw = nrpv / nrpv_target if nrpv_target > 0 else 0`. -/
def rf_raw (nrpv nrpv_target : ℚ) : ℚ :=
  if nrpv_target > 0 then nrpv / nrpv_target else 0

/-- `main.py` `calculate_scores`: `lf_raw = lcv_target / lcv if lcv > 0 else 0`. -/
def lf_raw (lcv lcv_target : ℚ) : ℚ :=
  if lcv > 0 then lcv_target / lcv else 0

/-- `main.py` `calculate_scores`: `vvi_raw = (nrpv / lcv) if lcv > 0 else 0`. -/
def vvi_raw (nrpv lcv : ℚ) : ℚ :=
  if lcv > 0 then nrpv / lcv else 0

/-- `main.py` `calculate_scores`:
`vvi_target = (nrpv_target / lcv_target) if lcv_target > 0 else 1.67`. -/
def vvi_target (nrpv_target lcv_target : ℚ) : ℚ :=
  if lcv_target > 0 then nrpv_target / lcv_target else 167/100

/-- `main.py` `calculate_scores`: `vvi_score = (vvi_raw / vvi_target) * 100`,
the unrounded VVI score. -/
def vvi_score_raw (nrpv lcv nrpv_target lcv_target : ℚ) : ℚ :=
  vvi_raw nrpv lcv / vvi_target nrpv_target lcv_target * 100

/-- Output record of `VVICalculator.calculate_scores`. -/
structure Scores where
  vvi : ℚ
  rf : ℚ
  lf : ℚ
deriving DecidableEq, Repr

/-- `main.py` `VVICalculator.calculate_scores`.  The guarded raw factors never
raise, but the final division `vvi_raw / vvi_target` is unguarded: when
`vvi_target` is zero (i.e. `nrpv_target = 0` with `lcv_target > 0`) Python
raises a `ZeroDivisionError`, modelled as `none`. -/
def calculate_scores (nrpv lcv nrpv_target lcv_target : ℚ) : Option Scores :=
  let rf_score := rf_raw nrpv nrpv_target * 100
  let lf_score := lf_raw lcv lcv_target * 100
  if vvi_target nrpv_target lcv_target = 0 then none else
  some ⟨roundTo 1 (vvi_score_raw nrpv lcv nrpv_target lcv_target),
        roundTo 1 rf_score, roundTo 1 lf_score⟩

lemma calculate_metrics_pos (net_revenue : ℚ) (visit_volume : ℤ) (labor_cost : ℚ)
    (hnr : net_revenue ≠ 0) (hvv : visit_volume ≠ 0) :
    calculate_metrics net_revenue visit_volume labor_cost =
      some ⟨roundTo 2 (net_revenue / visit_volume),
            roundTo 2 (labor_cost / visit_volume),
            roundTo 1 (labor_cost / net_revenue * 100)⟩ := by
  unfold calculate_metrics
  rw [if_neg hvv, if_neg hnr]

lemma calculate_scores_pos (nrpv lcv nrpv_target lcv_target : ℚ)
    (hl : 0 < lcv) (h1 : 0 < nrpv_target) (h2 : 0 < lcv_target) :
    calculate_scores nrpv lcv nrpv_target lcv_target =
      some ⟨roundTo 1 (nrpv / lcv / (nrpv_target / lcv_target) * 100),
            roundTo 1 (nrpv / nrpv_target * 100),
            roundTo 1 (lcv_target / lcv * 100)⟩ := by
  have hvt : vvi_target nrpv_target lcv_target = nrpv_target / lcv_target := by
    unfold vvi_target
    rw [if_pos h2]
  unfold calculate_scores vvi_score_raw rf_raw lf_raw vvi_raw
  rw [hvt, if_neg (by positivity), if_pos h1, if_pos hl, if_pos hl]

/-! ### Scenario content libraries -/

/-- The per-scenario content fields the model tracks (name and risk level
identify each record of the Python content dictionaries). -/
structure ScenarioContent where
  name : String
  risk_level : String
deriving DecidableEq, Repr

/-- `app.py` `scenario_library` inside `_assess_local`: all 16 entries are
present (name and risk level of each record). -/
def app_scenario_library (sid : String) : Option ScenarioContent :=
  match sid with
  | "S01" => some ⟨"Excellent Revenue / Excellent Labor", "Low"⟩
  | "S02" => some ⟨"Excellent Revenue / Stable Labor", "Low"⟩
  | "S03" => some ⟨"Excellent Revenue / At Risk Labor", "Medium"⟩
  | "S04" => some ⟨"Excellent Revenue / Critical Labor", "High"⟩
  | "S05" => some ⟨"Stable Revenue / Excellent Labor", "Low"⟩
  | "S06" => some ⟨"Stable Revenue / Stable Labor", "Low"⟩
  | "S07" => some ⟨"Stable Revenue / At Risk Labor", "Medium"⟩
  | "S08" => some ⟨"Stable Revenue / Critical Labor", "High"⟩
  | "S09" => some ⟨"At Risk Revenue / Excellent Labor", "Medium"⟩
  | "S10" => some ⟨"At Risk Revenue / Stable Labor", "Medium"⟩
  | "S11" => some ⟨"At Risk Revenue / At Risk Labor", "High"⟩
  | "S12" => some ⟨"At Risk Revenue / Critical Labor", "Critical"⟩
  | "S13" => some ⟨"Critical Revenue / Excellent Labor", "High"⟩
  | "S14" => some ⟨"Critical Revenue / Stable Labor", "High"⟩
  | "S15" => some ⟨"Critical Revenue / At Risk Labor", "Critical"⟩
  | "S16" => some ⟨"Critical Revenue / Critical Labor", "Critical"⟩
  | _ => none

/-- `main.py` `SCENARIO_LIBRARY`: only `"S01"` and `"S16"` are present
(the source says "Add remaining scenarios S02-S15 here (truncated)"). -/
def SCENARIO_LIBRARY : String → Option ScenarioContent :=
  fun sid =>
    match sid with
    | "S01" => some ⟨"Excellent Revenue / Excellent Labor", "Low"⟩
    | "S16" => some ⟨"Critical Revenue / Critical Labor", "Critical"⟩
    | _ => none

/-- `app.py` content resolution (`_assess_local` lines around the
`scenario_library.get(scenario_id)` call): a plain `.get`; the caller raises
`ValueError` when it is `none`. -/
def app_lookup_content (lib : String → Option ScenarioContent) (sid : String) :
    Option ScenarioContent :=
  lib sid

/-- `main.py` content resolution in `assess_vvi`:
`SCENARIO_LIBRARY.get(scenario_id, SCENARIO_LIBRARY["S16"])`.  The eager
index `lib["S16"]` raises `KeyError` (modelled `none`) if `"S16"` itself is
absent; otherwise an absent `sid` falls back to the `"S16"` record. -/
def main_lookup_content (lib : String → Option ScenarioContent) (sid : String) :
    Option ScenarioContent :=
  match lib "S16" with
  | none => none
  | some d => some ((lib sid).getD d)

/-! ### Full assessments -/

/-- The numeric/classification part of an assessment response, shared by both
paths: rounded metrics, rounded scores, tier strings, scenario id and the
name/risk level of the returned content record. -/
structure Result where
  nrpv : ℚ
  lcv : ℚ
  swb_pct : ℚ
  vvi : ℚ
  rf : ℚ
  lf : ℚ
  vvi_tier : String
  rf_tier : String
  lf_tier : String
  scenario_id : String
  scenario_name : String
  risk_level : String
deriving DecidableEq, Repr

/-- A `Result` together with the `source` tag (`"local"` or `"api"`). -/
structure Tagged where
  result : Result
  source : String
deriving DecidableEq, Repr

/-- `app.py` `VVIAPIClient._assess_local`, parametric in the content library
(the shipped library is `app_scenario_library`).  Unguarded Python divisions
raise `ZeroDivisionError` and a missing content record raises `ValueError`;
both are modelled as `none`. -/
def assess_local_with (lib : String → Option ScenarioContent)
    (net_revenue : ℚ) (visit_volume : ℤ) (labor_cost nrpv_target lcv_target : ℚ) :
    Option Tagged :=
  if visit_volume = 0 then none else
  let nrpv := net_revenue / visit_volume
  let lcv := labor_cost / visit_volume
  if net_revenue = 0 then none else
  let swb_pct := labor_cost / net_revenue * 100
  if nrpv_target = 0 then none else
  let rf_score := nrpv / nrpv_target * 100
  if lcv = 0 then none else
  let lf_score := lcv_target / lcv * 100
  if lcv_target = 0 then none else
  if nrpv_target / lcv_target = 0 then none else
  let vvi_score := nrpv / lcv / (nrpv_target / lcv_target) * 100
  let vvi_tier := tier_from_score vvi_score
  let rf_tier := tier_from_score rf_score
  let lf_tier := tier_from_score lf_score
  let scenario_id := scenario_map rf_tier lf_tier
  match app_lookup_content lib scenario_id with
  | none => none
  | some c =>
    some ⟨⟨roundTo 2 nrpv, roundTo 2 lcv, roundTo 1 swb_pct,
           roundTo 1 vvi_score, roundTo 1 rf_score, roundTo 1 lf_score,
           vvi_tier, rf_tier, lf_tier, scenario_id, c.name, c.risk_level⟩,
          "local"⟩

/-- `app.py` `VVIAPIClient._assess_local` with the shipped 16-entry library. -/
def _assess_local (net_revenue : ℚ) (visit_volume : ℤ)
    (labor_cost nrpv_target lcv_target : ℚ) : Option Tagged :=
  assess_local_with app_scenario_library net_revenue visit_volume labor_cost
    nrpv_target lcv_target

/-- `main.py` endpoint `assess_vvi`.  The leading `if` models the pydantic
validation (`gt=0` on all five numeric fields, rejected with a 422 before the
handler runs); the remaining steps follow the handler body. -/
def assess_vvi (net_revenue : ℚ) (visit_volume : ℤ)
    (labor_cost nrpv_target lcv_target : ℚ) : Option Result :=
  if net_revenue ≤ 0 ∨ visit_volume ≤ 0 ∨ labor_cost ≤ 0 ∨
     nrpv_target ≤ 0 ∨ lcv_target ≤ 0 then none
  else
    match calculate_metrics net_revenue visit_volume labor_cost with
    | none => none
    | some m =>
      match calculate_scores m.nrpv m.lcv nrpv_target lcv_target with
      | none => none
      | some s =>
        let vvi_tier := determine_tier s.vvi
        let rf_tier := determine_tier s.rf
        let lf_tier := determine_tier s.lf
        let scenario_id := get_scenario_id rf_tier lf_tier
        match main_lookup_content SCENARIO_LIBRARY scenario_id with
        | none => none
        | some c =>
          some ⟨m.nrpv, m.lcv, m.swb_pct, s.vvi, s.rf, s.lf,
                tierName vvi_tier, tierName rf_tier, tierName lf_tier,
                scenario_id, c.name, c.risk_level⟩

/-- `app.py` `VVIAPIClient._assess_via_api`: the remote call either raises
(any exception, non-2xx via `raise_for_status`, timeout — modelled by the
`remote` parameter being `none`) or returns the remote response with
`result["source"] = "api"` added. -/
def _assess_via_api (remote : Option Result) : Option Tagged :=
  remote.map fun r => ⟨r, "api"⟩

/-- `app.py` `VVIAPIClient.assess`: when `use_api` is set, try the API and on
any exception fall back to `_assess_local`; otherwise go local directly. -/
def assess (use_api : Bool) (remote : Option Result)
    (net_revenue : ℚ) (visit_volume : ℤ)
    (labor_cost nrpv_target lcv_target : ℚ) : Option Tagged :=
  if use_api then
    match _assess_via_api remote with
    | some t => some t
    | none =>
      _assess_local net_revenue visit_volume labor_cost nrpv_target lcv_target
  else
    _assess_local net_revenue visit_volume labor_cost nrpv_target lcv_target

/-! ### Unfolding lemmas for the two paths -/

lemma main_lookup_shipped (sid : String) :
    main_lookup_content SCENARIO_LIBRARY sid =
      some ((SCENARIO_LIBRARY sid).getD
        ⟨"Critical Revenue / Critical Labor", "Critical"⟩) := rfl

lemma app_lib_total (a b : TierEnum) :
    ∃ c, app_scenario_library (get_scenario_id a b) = some c := by
  cases a <;> cases b <;> exact ⟨_, rfl⟩

lemma assess_local_with_spec (lib : String → Option ScenarioContent)
    (nr : ℚ) (vv : ℤ) (lc t1 t2 : ℚ)
    (hvv : vv ≠ 0) (hnr : nr ≠ 0) (ht1 : t1 ≠ 0)
    (hlcv : lc / (vv : ℚ) ≠ 0) (ht2 : t2 ≠ 0) (hvt : t1 / t2 ≠ 0) :
    assess_local_with lib nr vv lc t1 t2 =
      (lib (scenario_map (tier_from_score (nr / vv / t1 * 100))
                         (tier_from_score (t2 / (lc / vv) * 100)))).map
        (fun c =>
          ⟨⟨roundTo 2 (nr / vv), roundTo 2 (lc / vv), roundTo 1 (lc / nr * 100),
            roundTo 1 (nr / vv / (lc / vv) / (t1 / t2) * 100),
            roundTo 1 (nr / vv / t1 * 100),
            roundTo 1 (t2 / (lc / vv) * 100),
            tier_from_score (nr / vv / (lc / vv) / (t1 / t2) * 100),
            tier_from_score (nr / vv / t1 * 100),
            tier_from_score (t2 / (lc / vv) * 100),
            scenario_map (tier_from_score (nr / vv / t1 * 100))
                         (tier_from_score (t2 / (lc / vv) * 100)),
            c.name, c.risk_level⟩, "local"⟩) := by
  unfold assess_local_with app_lookup_content
  rw [if_neg hvv, if_neg hnr, if_neg ht1, if_neg hlcv, if_neg ht2, if_neg hvt]
  cases h : lib (scenario_map (tier_from_score (nr / vv / t1 * 100))
      (tier_from_score (t2 / (lc / vv) * 100))) <;> simp [h]

lemma assess_vvi_spec (nr : ℚ) (vv : ℤ) (lc t1 t2 : ℚ)
    (hnr : 0 < nr) (hvv : 0 < vv) (hlc : 0 < lc) (ht1 : 0 < t1) (ht2 : 0 < t2)
    (hL : 0 < roundTo 2 (lc / vv)) :
    assess_vvi nr vv lc t1 t2 =
      some ⟨roundTo 2 (nr / vv), roundTo 2 (lc / vv), roundTo 1 (lc / nr * 100),
        roundTo 1 (roundTo 2 (nr / vv) / roundTo 2 (lc / vv) / (t1 / t2) * 100),
        roundTo 1 (roundTo 2 (nr / vv) / t1 * 100),
        roundTo 1 (t2 / roundTo 2 (lc / vv) * 100),
        tierName (determine_tier
          (roundTo 1 (roundTo 2 (nr / vv) / roundTo 2 (lc / vv) / (t1 / t2) * 100))),
        tierName (determine_tier (roundTo 1 (roundTo 2 (nr / vv) / t1 * 100))),
        tierName (determine_tier (roundTo 1 (t2 / roundTo 2 (lc / vv) * 100))),
        get_scenario_id
          (determine_tier (roundTo 1 (roundTo 2 (nr / vv) / t1 * 100)))
          (determine_tier (roundTo 1 (t2 / roundTo 2 (lc / vv) * 100))),
        ((SCENARIO_LIBRARY (get_scenario_id
            (determine_tier (roundTo 1 (roundTo 2 (nr / vv) / t1 * 100)))
            (determine_tier (roundTo 1 (t2 / roundTo 2 (lc / vv) * 100))))).getD
          ⟨"Critical Revenue / Critical Labor", "Critical"⟩).name,
        ((SCENARIO_LIBRARY (get_scenario_id
            (determine_tier (roundTo 1 (roundTo 2 (nr / vv) / t1 * 100)))
            (determine_tier (roundTo 1 (t2 / roundTo 2 (lc / vv) * 100))))).getD
          ⟨"Critical Revenue / Critical Labor", "Critical"⟩).risk_level⟩ := by
  unfold assess_vvi
  rw [if_neg (by push_neg; exact ⟨hnr, hvv, hlc, ht1, ht2⟩)]
  rw [calculate_metrics_pos nr vv lc (ne_of_gt hnr) (by exact_mod_cast hvv.ne')]
  simp only []
  rw [calculate_scores_pos _ _ _ _ hL ht1 ht2]
  simp only []
  rw [main_lookup_shipped]

/-! ### Concrete evaluations used by several claims -/

lemma local_example_eval :
    _assess_local 100000 500 65000 140 85 =
      some ⟨⟨200, 130, 65, 467/5, 1429/10, 327/5,
        "At Risk", "Excellent", "Critical", "S04",
        "Excellent Revenue / Critical Labor", "High"⟩, "local"⟩ := by
  rw [_assess_local, assess_local_with_spec app_scenario_library
    100000 500 65000 140 85 (by norm_num) (by norm_num) (by norm_num)
    (by norm_num) (by norm_num) (by norm_num)]
  norm_num [tier_from_score, roundTo, roundHalfEven]
  rw [show scenario_map "Excellent" "Critical" = "S04" from rfl]
  rw [show app_scenario_library "S04" =
    some ⟨"Excellent Revenue / Critical Labor", "High"⟩ from rfl]
  exact ⟨_, rfl, rfl, rfl, rfl⟩

lemma api_example_eval :
    assess_vvi 100000 500 65000 140 85 =
      some ⟨200, 130, 65, 467/5, 1429/10, 327/5,
        "At Risk", "Excellent", "Critical", "S04",
        "Critical Revenue / Critical Labor", "Critical"⟩ := by
  rw [assess_vvi_spec 100000 500 65000 140 85 (by norm_num) (by norm_num)
    (by norm_num) (by norm_num) (by norm_num)
    (by norm_num [roundTo, roundHalfEven])]
  norm_num [determine_tier, tierName, roundTo, roundHalfEven, get_scenario_id]
  rw [show SCENARIO_LIBRARY "S04" = none from rfl]
  exact ⟨rfl, rfl⟩

/-! ### Claims -/

/-- C3: tier assignment is the step function Excellent iff score ≥ 100,
Stable iff 95 ≤ score < 100, At Risk iff 90 ≤ score < 95, Critical iff
score < 90, with ≥ (never >) at each threshold, in both `determine_tier`
(`main.py`) and `tier_from_score` (`app.py`); in particular 100.0→Excellent,
99.99→Stable, 95.0→Stable, 94.99→At Risk, 90.0→At Risk, 89.99→Critical. -/
theorem c3_tier_step_function :
    (∀ s : ℚ,
      (determine_tier s = .excellent ↔ 100 ≤ s) ∧
      (determine_tier s = .stable ↔ 95 ≤ s ∧ s < 100) ∧
      (determine_tier s = .atRisk ↔ 90 ≤ s ∧ s < 95) ∧
      (determine_tier s = .critical ↔ s < 90) ∧
      tier_from_score s = tierName (determine_tier s)) ∧
    determine_tier 100 = .excellent ∧
    determine_tier (9999/100) = .stable ∧
    determine_tier 95 = .stable ∧
    determine_tier (9499/100) = .atRisk ∧
    determine_tier 90 = .atRisk ∧
    determine_tier (8999/100) = .critical ∧
    tier_from_score 100 = "Excellent" ∧
    tier_from_score (9999/100) = "Stable" ∧
    tier_from_score 95 = "Stable" ∧
    tier_from_score (9499/100) = "At Risk" ∧
    tier_from_score 90 = "At Risk" ∧
    tier_from_score (8999/100) = "Critical" := by
  refine ⟨fun s => ⟨?_, ?_, ?_, ?_, tier_from_score_eq_tierName s⟩,
    ?_, ?_, ?_, ?_, ?_, ?_, ?_, ?_, ?_, ?_, ?_, ?_⟩ <;>
    first
      | (unfold determine_tier
         split_ifs with h1 h2 h3 <;> simp_all <;>
           first
             | (rintro ⟨ha, hb⟩; linarith)
             | (intro h; linarith)
             | linarith
             | (constructor <;> intro h <;> linarith))
      | norm_num [determine_tier, tier_from_score, tierName]

/-- C4: the (rf_tier, lf_tier) → scenario-id mapping is total over the 16
tier pairs and a bijection onto {S01..S16}, assigned in row-major order over
[Excellent, Stable, At Risk, Critical] squared; `app.py`'s string-keyed
`scenario_map` agrees with `main.py`'s `get_scenario_id` on all 16 pairs. -/
theorem c4_scenario_id_bijection :
    (∀ a b : TierEnum,
      get_scenario_id a b = scenarioIds.getD (4 * tierIdx a + tierIdx b) "") ∧
    (∀ a b c d : TierEnum, get_scenario_id a b = get_scenario_id c d →
      a = c ∧ b = d) ∧
    (∀ sid ∈ scenarioIds, ∃ a b : TierEnum, get_scenario_id a b = sid) ∧
    scenarioIds.Nodup ∧ scenarioIds.length = 16 ∧
    get_scenario_id .excellent .excellent = "S01" ∧
    get_scenario_id .excellent .critical = "S04" ∧
    get_scenario_id .critical .critical = "S16" ∧
    (∀ a b : TierEnum, scenario_map (tierName a) (tierName b) =
      get_scenario_id a b) := by
  refine ⟨by decide, by decide, by decide, by decide, by decide,
    rfl, rfl, rfl, by decide⟩

/-- C1: for net_revenue=100000, visit_volume=500, labor_cost=65000,
nrpv_target=140, lcv_target=85, both the local path and the API path return
metrics nrpv=200.00, lcv=130.00, swb_pct=65.0, scores rf=142.9, lf=65.4,
vvi=93.4, tiers rf=Excellent and lf=Critical, and scenario id "S04". -/
theorem c1_end_to_end_example :
    _assess_local 100000 500 65000 140 85 =
      some ⟨⟨200, 130, 65, 467/5, 1429/10, 327/5,
        "At Risk", "Excellent", "Critical", "S04",
        "Excellent Revenue / Critical Labor", "High"⟩, "local"⟩ ∧
    assess_vvi 100000 500 65000 140 85 =
      some ⟨200, 130, 65, 467/5, 1429/10, 327/5,
        "At Risk", "Excellent", "Critical", "S04",
        "Critical Revenue / Critical Labor", "Critical"⟩ :=
  ⟨local_example_eval, api_example_eval⟩

/-- C5: for every valid input, the Benchmark Normalizer returns
nrpv = net_revenue/visit_volume rounded to 2 decimal places,
lcv = labor_cost/visit_volume rounded to 2 decimal places, and
swb_pct = 100·labor_cost/net_revenue rounded to 1 decimal place:
each returned value is an integer multiple of the stated precision lying
within half a unit of the exact quotient. -/
theorem c5_normalizer_rounded_metrics (net_revenue : ℚ) (visit_volume : ℤ)
    (labor_cost : ℚ) (hnr : 0 < net_revenue) (hvv : 0 < visit_volume)
    (hlc : 0 < labor_cost) :
    ∃ a b c : ℤ,
      calculate_metrics net_revenue visit_volume labor_cost =
        some ⟨(a : ℚ) / 100, (b : ℚ) / 100, (c : ℚ) / 10⟩ ∧
      |(a : ℚ) / 100 - net_revenue / visit_volume| ≤ 1 / 200 ∧
      |(b : ℚ) / 100 - labor_cost / visit_volume| ≤ 1 / 200 ∧
      |(c : ℚ) / 10 - 100 * labor_cost / net_revenue| ≤ 1 / 20 := by
  refine ⟨roundHalfEven (net_revenue / visit_volume * 10 ^ 2),
          roundHalfEven (labor_cost / visit_volume * 10 ^ 2),
          roundHalfEven (labor_cost / net_revenue * 100 * 10 ^ 1), ?_, ?_, ?_, ?_⟩
  · rw [calculate_metrics_pos _ _ _ (ne_of_gt hnr) (by exact_mod_cast hvv.ne'),
      roundTo_eq_int_div, roundTo_eq_int_div, roundTo_eq_int_div]
    norm_num
  · have h := roundTo_sub_abs 2 (net_revenue / visit_volume)
    rw [roundTo_eq_int_div] at h
    norm_num at h ⊢
    exact h
  · have h := roundTo_sub_abs 2 (labor_cost / visit_volume)
    rw [roundTo_eq_int_div] at h
    norm_num at h ⊢
    exact h
  · have h := roundTo_sub_abs 1 (labor_cost / net_revenue * 100)
    rw [roundTo_eq_int_div] at h
    norm_num at h ⊢
    rw [show (100 : ℚ) * labor_cost / net_revenue =
      labor_cost / net_revenue * 100 by ring]
    exact h

/-- Witness for C5 at net_revenue=100000, visit_volume=500, labor_cost=65000. -/
theorem c5_normalizer_rounded_metrics_witness :
    (0 : ℚ) < 100000 ∧ (0 : ℤ) < 500 ∧ (0 : ℚ) < 65000 ∧
    ∃ a b c : ℤ,
      calculate_metrics 100000 500 65000 =
        some ⟨(a : ℚ) / 100, (b : ℚ) / 100, (c : ℚ) / 10⟩ ∧
      |(a : ℚ) / 100 - 100000 / (500 : ℤ)| ≤ 1 / 200 ∧
      |(b : ℚ) / 100 - 65000 / (500 : ℤ)| ≤ 1 / 200 ∧
      |(c : ℚ) / 10 - 100 * 65000 / 100000| ≤ 1 / 20 :=
  ⟨by norm_num, by norm_num, by norm_num,
    c5_normalizer_rounded_metrics 100000 500 65000 (by norm_num) (by norm_num)
      (by norm_num)⟩

/-- C6 counterexample: called with lcv = 0 (and positive targets), the score
computation does not fail with an InvalidInput error — it silently
substitutes 0 for the affected factors and returns vvi = 0, rf = 142.9,
lf = 0. -/
theorem c6_counterexample :
    calculate_scores 200 0 140 85 = some ⟨0, 1429/10, 0⟩ := by
  rw [show calculate_scores 200 0 140 85 =
      some ⟨roundTo 1 (vvi_score_raw 200 0 140 85),
            roundTo 1 (rf_raw 200 140 * 100),
            roundTo 1 (lf_raw 0 85 * 100)⟩ by
    unfold calculate_scores
    rw [if_neg (by norm_num [vvi_target])]]
  norm_num [vvi_score_raw, vvi_raw, vvi_target, rf_raw, lf_raw,
    roundTo, roundHalfEven]

/-- C6 amended: `calculate_scores` never raises InvalidInput.  With lcv ≤ 0
(and positive targets) it substitutes 0 for the labor and VVI raw factors and
returns lf = vvi = 0 with rf still computed; with nrpv_target < 0 it
substitutes 0 for the revenue factor and returns rf = 0; with
lcv_target ≤ 0 it substitutes 1.67 for vvi_target and still returns a
result; and the only failing case — characterized exactly — is
nrpv_target = 0 with lcv_target > 0, which hits an unguarded division by
zero (a ZeroDivisionError, not a descriptive InvalidInput). -/
theorem c6_amended_silent_substitution :
    (∀ nrpv lcv t1 t2 : ℚ, lcv ≤ 0 → 0 < t1 → 0 < t2 →
      calculate_scores nrpv lcv t1 t2 =
        some ⟨0, roundTo 1 (nrpv / t1 * 100), 0⟩) ∧
    (∀ nrpv lcv t1 t2 : ℚ, t1 < 0 → 0 < lcv → 0 < t2 →
      calculate_scores nrpv lcv t1 t2 =
        some ⟨roundTo 1 (nrpv / lcv / (t1 / t2) * 100), 0,
              roundTo 1 (t2 / lcv * 100)⟩) ∧
    (∀ nrpv lcv t1 t2 : ℚ, t2 ≤ 0 →
      vvi_target t1 t2 = 167/100 ∧
      calculate_scores nrpv lcv t1 t2 =
        some ⟨roundTo 1 (vvi_raw nrpv lcv / (167/100) * 100),
              roundTo 1 (rf_raw nrpv t1 * 100),
              roundTo 1 (lf_raw lcv t2 * 100)⟩) ∧
    (∀ nrpv lcv t1 t2 : ℚ,
      calculate_scores nrpv lcv t1 t2 = none ↔ t1 = 0 ∧ 0 < t2) := by
  refine ⟨?_, ?_, ?_, ?_⟩
  · intro nrpv lcv t1 t2 hl ht1 ht2
    have hvt : vvi_target t1 t2 = t1 / t2 := by
      unfold vvi_target
      rw [if_pos ht2]
    unfold calculate_scores
    rw [hvt, if_neg (by positivity)]
    unfold vvi_score_raw vvi_raw rf_raw lf_raw
    rw [hvt, if_neg (by linarith), if_pos ht1, if_neg (by linarith)]
    norm_num [roundTo_zero]
  · intro nrpv lcv t1 t2 ht1 hl ht2
    have hvt : vvi_target t1 t2 = t1 / t2 := by
      unfold vvi_target
      rw [if_pos ht2]
    have hvtne : t1 / t2 ≠ 0 := by
      have : t1 / t2 < 0 := div_neg_of_neg_of_pos ht1 ht2
      linarith
    unfold calculate_scores
    rw [hvt, if_neg hvtne]
    unfold vvi_score_raw vvi_raw rf_raw lf_raw
    rw [hvt, if_pos hl, if_neg (by linarith), if_pos hl]
    norm_num [roundTo_zero]
  · intro nrpv lcv t1 t2 ht2
    have hvt : vvi_target t1 t2 = 167/100 := by
      unfold vvi_target
      rw [if_neg (not_lt.mpr ht2)]
    refine ⟨hvt, ?_⟩
    unfold calculate_scores
    rw [if_neg (by rw [hvt]; norm_num)]
    unfold vvi_score_raw
    rw [hvt]
  · intro nrpv lcv t1 t2
    unfold calculate_scores
    split_ifs with h
    · constructor
      · intro _
        unfold vvi_target at h
        split_ifs at h with h2
        · refine ⟨?_, h2⟩
          rcases div_eq_zero_iff.mp h with h0 | h0
          · exact h0
          · exact absurd h0 (ne_of_gt h2)
        · exact absurd h (by norm_num)
      · intro _
        rfl
    · constructor
      · intro hcon
        exact absurd hcon (by simp)
      · rintro ⟨rfl, h2⟩
        exact absurd (by unfold vvi_target; rw [if_pos h2, zero_div]) h

/-- Witness for C6 amended at (nrpv, lcv, targets) = (200, -1, 140, 85) for
the lcv ≤ 0 clause and (200, 130, 140, -5) for the lcv_target ≤ 0 clause. -/
theorem c6_amended_silent_substitution_witness :
    (-1 : ℚ) ≤ 0 ∧ (0 : ℚ) < 140 ∧ (0 : ℚ) < 85 ∧
    calculate_scores 200 (-1) 140 85 =
      some ⟨0, roundTo 1 (200 / 140 * 100), 0⟩ ∧
    ((-5 : ℚ) ≤ 0 ∧
      vvi_target 140 (-5) = 167/100 ∧
      calculate_scores 200 130 140 (-5) =
        some ⟨roundTo 1 (vvi_raw 200 130 / (167/100) * 100),
              roundTo 1 (rf_raw 200 140 * 100),
              roundTo 1 (lf_raw 130 (-5) * 100)⟩) :=
  ⟨by norm_num, by norm_num, by norm_num,
    c6_amended_silent_substitution.1 200 (-1) 140 85 (by norm_num) (by norm_num)
      (by norm_num),
    by norm_num,
    c6_amended_silent_substitution.2.2.1 200 130 140 (-5) (by norm_num)⟩

/-- C7 counterexample: called with labor_cost = -50000 < 0 (net_revenue =
100000, visit_volume = 500), the normalizer does not fail with an
InvalidInput error — it returns a computed result with negative metrics. -/
theorem c7_counterexample :
    calculate_metrics 100000 500 (-50000) = some ⟨200, -100, -50⟩ := by
  rw [calculate_metrics_pos 100000 500 (-50000) (by norm_num) (by norm_num)]
  norm_num [roundTo, roundHalfEven]

/-- C7 amended: the normalizer has no defensive guard at all: it fails (with
an unguarded ZeroDivisionError, not an InvalidInput error) exactly when
visit_volume = 0 or net_revenue = 0, and for every other input — including
negative visit_volume, net_revenue, or labor_cost — it returns a computed
result. -/
theorem c7_amended_no_guard (net_revenue : ℚ) (visit_volume : ℤ)
    (labor_cost : ℚ) :
    calculate_metrics net_revenue visit_volume labor_cost = none ↔
      visit_volume = 0 ∨ net_revenue = 0 := by
  unfold calculate_metrics
  split_ifs with h1 h2 <;> simp_all

/-- C10: in exact arithmetic the unrounded vvi score equals
rf_score · lf_score / 100: the ratio-of-ratios formula coincides with the
normalized product of the two unrounded sub-scores whenever lcv and both
targets are positive. -/
theorem c10_vvi_is_normalized_product (nrpv lcv nrpv_target lcv_target : ℚ)
    (hl : 0 < lcv) (h1 : 0 < nrpv_target) (h2 : 0 < lcv_target) :
    vvi_score_raw nrpv lcv nrpv_target lcv_target =
      (rf_raw nrpv nrpv_target * 100) * (lf_raw lcv lcv_target * 100) / 100 := by
  unfold vvi_score_raw vvi_raw vvi_target rf_raw lf_raw
  rw [if_pos hl, if_pos h2, if_pos h1, if_pos hl]
  field_simp
  ring

/-- Witness for C10 at (nrpv, lcv, targets) = (200, 130, 140, 85). -/
theorem c10_vvi_is_normalized_product_witness :
    (0 : ℚ) < 130 ∧ (0 : ℚ) < 140 ∧ (0 : ℚ) < 85 ∧
    vvi_score_raw 200 130 140 85 =
      (rf_raw 200 140 * 100) * (lf_raw 130 85 * 100) / 100 :=
  ⟨by norm_num, by norm_num, by norm_num,
    c10_vvi_is_normalized_product 200 130 140 85 (by norm_num) (by norm_num)
      (by norm_num)⟩

/-- C2 counterexample: at net_revenue=139.95, visit_volume=1, labor_cost=85,
default targets (all valid inputs), the two paths return identical scores
(100.0 each) but different rf tiers (local "Stable", API "Excellent") and
different scenario ids (local "S05", API "S01"): the local path tiers the
unrounded scores while the API path tiers the rounded ones. -/
theorem c2_counterexample :
    ∃ (tl : Tagged) (ra : Result),
      _assess_local (2799/20) 1 85 140 85 = some tl ∧
      assess_vvi (2799/20) 1 85 140 85 = some ra ∧
      tl.result.vvi = ra.vvi ∧ tl.result.rf = ra.rf ∧ tl.result.lf = ra.lf ∧
      tl.result.rf_tier = "Stable" ∧ ra.rf_tier = "Excellent" ∧
      tl.result.scenario_id = "S05" ∧ ra.scenario_id = "S01" := by
  have hLocal : _assess_local (2799/20) 1 85 140 85 =
      some ⟨⟨2799/20, 85, 607/10, 100, 100, 100,
        "Stable", "Stable", "Excellent", "S05",
        "Stable Revenue / Excellent Labor", "Low"⟩, "local"⟩ := by
    rw [_assess_local, assess_local_with_spec app_scenario_library
      (2799/20) 1 85 140 85 (by norm_num) (by norm_num) (by norm_num)
      (by norm_num) (by norm_num) (by norm_num)]
    norm_num [tier_from_score, roundTo, roundHalfEven]
    rw [show scenario_map "Stable" "Excellent" = "S05" from rfl]
    rw [show app_scenario_library "S05" =
      some ⟨"Stable Revenue / Excellent Labor", "Low"⟩ from rfl]
    exact ⟨_, rfl, rfl, rfl, rfl⟩
  have hApi : assess_vvi (2799/20) 1 85 140 85 =
      some ⟨2799/20, 85, 607/10, 100, 100, 100,
        "Excellent", "Excellent", "Excellent", "S01",
        "Excellent Revenue / Excellent Labor", "Low"⟩ := by
    rw [assess_vvi_spec (2799/20) 1 85 140 85 (by norm_num) (by norm_num)
      (by norm_num) (by norm_num) (by norm_num)
      (by norm_num [roundTo, roundHalfEven])]
    norm_num [determine_tier, tierName, roundTo, roundHalfEven, get_scenario_id]
    rw [show SCENARIO_LIBRARY "S01" =
      some ⟨"Excellent Revenue / Excellent Labor", "Low"⟩ from rfl]
    exact ⟨rfl, rfl⟩
  exact ⟨_, _, hLocal, hApi, rfl, rfl, rfl, rfl, rfl, rfl, rfl⟩

/-- C2 amended: the two paths agree on metrics, and on scores, tiers and
scenario id as well, provided rounding is inert for the given input: the
per-visit metrics are already exact at 2 decimal places and rounding each
score to 1 decimal place does not change its tier.  (In general the paths
diverge, because the API path computes scores from rounded metrics and tiers
from rounded scores while the local path uses unrounded values.) -/
theorem c2_amended_agreement (nr : ℚ) (vv : ℤ) (lc t1 t2 : ℚ)
    (hnr : 0 < nr) (hvv : 0 < vv) (hlc : 0 < lc) (ht1 : 0 < t1) (ht2 : 0 < t2)
    (hex1 : roundTo 2 (nr / vv) = nr / vv)
    (hex2 : roundTo 2 (lc / vv) = lc / vv)
    (hrf : determine_tier (roundTo 1 (nr / vv / t1 * 100)) =
      determine_tier (nr / vv / t1 * 100))
    (hlf : determine_tier (roundTo 1 (t2 / (lc / vv) * 100)) =
      determine_tier (t2 / (lc / vv) * 100))
    (hvvi : determine_tier (roundTo 1 (nr / vv / (lc / vv) / (t1 / t2) * 100)) =
      determine_tier (nr / vv / (lc / vv) / (t1 / t2) * 100)) :
    ∃ (tl : Tagged) (ra : Result),
      _assess_local nr vv lc t1 t2 = some tl ∧
      assess_vvi nr vv lc t1 t2 = some ra ∧
      tl.result.nrpv = ra.nrpv ∧ tl.result.lcv = ra.lcv ∧
      tl.result.swb_pct = ra.swb_pct ∧
      tl.result.vvi = ra.vvi ∧ tl.result.rf = ra.rf ∧ tl.result.lf = ra.lf ∧
      tl.result.vvi_tier = ra.vvi_tier ∧ tl.result.rf_tier = ra.rf_tier ∧
      tl.result.lf_tier = ra.lf_tier ∧
      tl.result.scenario_id = ra.scenario_id := by
  have hvvQ : (0 : ℚ) < (vv : ℚ) := by exact_mod_cast hvv
  have hL : 0 < roundTo 2 (lc / vv) := by
    rw [hex2]
    exact div_pos hlc hvvQ
  rw [_assess_local, assess_local_with_spec app_scenario_library nr vv lc t1 t2
    (by exact_mod_cast hvv.ne') hnr.ne' ht1.ne' (div_pos hlc hvvQ).ne'
    ht2.ne' (div_pos ht1 ht2).ne']
  rw [assess_vvi_spec nr vv lc t1 t2 hnr hvv hlc ht1 ht2 hL]
  simp only [tier_from_score_eq_tierName, scenario_map_tierName]
  rw [hex1, hex2, hrf, hlf, hvvi]
  obtain ⟨c, hc⟩ := app_lib_total (determine_tier (nr / vv / t1 * 100))
    (determine_tier (t2 / (lc / vv) * 100))
  rw [hc]
  exact ⟨_, _, rfl, rfl, rfl, rfl, rfl, rfl, rfl, rfl, rfl, rfl, rfl, rfl⟩

/-- Witness for C2 amended at net_revenue=100000, visit_volume=500,
labor_cost=65000, targets 140/85, where rounding is inert. -/
theorem c2_amended_agreement_witness :
    roundTo 2 ((100000 : ℚ) / ((500 : ℤ) : ℚ)) = 100000 / ((500 : ℤ) : ℚ) ∧
    (∃ (tl : Tagged) (ra : Result),
      _assess_local 100000 500 65000 140 85 = some tl ∧
      assess_vvi 100000 500 65000 140 85 = some ra ∧
      tl.result.nrpv = ra.nrpv ∧ tl.result.lcv = ra.lcv ∧
      tl.result.swb_pct = ra.swb_pct ∧
      tl.result.vvi = ra.vvi ∧ tl.result.rf = ra.rf ∧ tl.result.lf = ra.lf ∧
      tl.result.vvi_tier = ra.vvi_tier ∧ tl.result.rf_tier = ra.rf_tier ∧
      tl.result.lf_tier = ra.lf_tier ∧
      tl.result.scenario_id = ra.scenario_id) :=
  ⟨by norm_num [roundTo, roundHalfEven],
    c2_amended_agreement 100000 500 65000 140 85 (by norm_num) (by norm_num)
      (by norm_num) (by norm_num) (by norm_num)
      (by norm_num [roundTo, roundHalfEven])
      (by norm_num [roundTo, roundHalfEven])
      (by norm_num [roundTo, roundHalfEven, determine_tier])
      (by norm_num [roundTo, roundHalfEven, determine_tier])
      (by norm_num [roundTo, roundHalfEven, determine_tier])⟩

/-- C8 counterexample: with the scenario "S04" entry deliberately removed
from the local content table, the local assessment for an input that
classifies to "S04" does not substitute the S16 content — it fails
(`ValueError`), contradicting "still returns a complete result … with no
exception raised to the caller". -/
theorem c8_counterexample :
    assess_local_with
      (fun sid => if sid = "S04" then none else app_scenario_library sid)
      100000 500 65000 140 85 = none := by
  rw [assess_local_with_spec _ 100000 500 65000 140 85 (by norm_num)
    (by norm_num) (by norm_num) (by norm_num) (by norm_num) (by norm_num)]
  norm_num [tier_from_score, roundTo, roundHalfEven]
  rw [show scenario_map "Excellent" "Critical" = "S04" from rfl]
  simp

/-- C8 amended: only the API path has the content fallback: when the
computed scenario id is absent from its table it silently substitutes the
S16 record and no exception reaches the caller (no warning is flagged
anywhere); the shipped API table indeed lacks "S04", and the assessment for
an "S04" input returns the S16 name and risk level.  The local path has no
fallback: an absent entry makes the assessment fail with a `ValueError`
(its shipped table contains all 16 entries, so this cannot happen for
shipped content). -/
theorem c8_amended_fallback_only_in_api :
    (∀ (lib : String → Option ScenarioContent) (sid : String)
        (d : ScenarioContent), lib "S16" = some d → lib sid = none →
      main_lookup_content lib sid = some d) ∧
    (∃ ra : Result, assess_vvi 100000 500 65000 140 85 = some ra ∧
      ra.scenario_id = "S04" ∧ SCENARIO_LIBRARY "S04" = none ∧
      ra.scenario_name = "Critical Revenue / Critical Labor" ∧
      ra.risk_level = "Critical") ∧
    (∀ (lib : String → Option ScenarioContent) (sid : String),
      lib sid = none → app_lookup_content lib sid = none) := by
  refine ⟨?_, ?_, ?_⟩
  · intro lib sid d h16 hsid
    unfold main_lookup_content
    rw [h16, hsid]
    rfl
  · exact ⟨_, api_example_eval, rfl, rfl, rfl, rfl⟩
  · intro lib sid h
    unfold app_lookup_content
    exact h

/-- Witness for C8 amended: the shipped API table lacks "S02" and the lookup
falls back to the S16 record; a local table with "S04" removed makes the
local lookup fail. -/
theorem c8_amended_fallback_only_in_api_witness :
    SCENARIO_LIBRARY "S02" = none ∧
    main_lookup_content SCENARIO_LIBRARY "S02" =
      some ⟨"Critical Revenue / Critical Labor", "Critical"⟩ ∧
    app_lookup_content
      (fun sid => if sid = "S04" then none else app_scenario_library sid)
      "S04" = none :=
  ⟨rfl,
    c8_amended_fallback_only_in_api.1 SCENARIO_LIBRARY "S02"
      ⟨"Critical Revenue / Critical Labor", "Critical"⟩ rfl rfl,
    c8_amended_fallback_only_in_api.2.2
      (fun sid => if sid = "S04" then none else app_scenario_library sid)
      "S04" (by simp)⟩

/-- C9: with the API enabled, any remote failure (modelled by the remote
outcome being `none`: exception, non-2xx raised by `raise_for_status`, or
timeout) makes `assess` return exactly the local computation, which succeeds
for valid inputs and is tagged source="local"; a successful remote call is
returned as-is tagged source="api". -/
theorem c9_api_failure_falls_back_to_local (nr : ℚ) (vv : ℤ) (lc t1 t2 : ℚ)
    (hnr : 0 < nr) (hvv : 0 < vv) (hlc : 0 < lc) (ht1 : 0 < t1)
    (ht2 : 0 < t2) :
    (assess true none nr vv lc t1 t2 = _assess_local nr vv lc t1 t2 ∧
     ∃ t : Tagged, _assess_local nr vv lc t1 t2 = some t ∧
       t.source = "local") ∧
    (∀ r : Result, assess true (some r) nr vv lc t1 t2 = some ⟨r, "api"⟩) := by
  refine ⟨⟨rfl, ?_⟩, fun r => rfl⟩
  have hvvQ : (0 : ℚ) < (vv : ℚ) := by exact_mod_cast hvv
  rw [_assess_local, assess_local_with_spec app_scenario_library nr vv lc t1 t2
    (by exact_mod_cast hvv.ne') hnr.ne' ht1.ne' (div_pos hlc hvvQ).ne'
    ht2.ne' (div_pos ht1 ht2).ne']
  simp only [tier_from_score_eq_tierName, scenario_map_tierName]
  obtain ⟨c, hc⟩ := app_lib_total (determine_tier (nr / vv / t1 * 100))
    (determine_tier (t2 / (lc / vv) * 100))
  rw [hc]
  exact ⟨_, rfl, rfl⟩

/-- Witness for C9 at net_revenue=100000, visit_volume=500,
labor_cost=65000, targets 140/85, with a sample remote response. -/
theorem c9_api_failure_falls_back_to_local_witness :
    (0 : ℤ) < 500 ∧
    (∃ t : Tagged, _assess_local 100000 500 65000 140 85 = some t ∧
      t.source = "local") ∧
    assess true
      (some ⟨200, 130, 65, 467/5, 1429/10, 327/5, "At Risk", "Excellent",
        "Critical", "S04", "Critical Revenue / Critical Labor", "Critical"⟩)
      100000 500 65000 140 85 =
      some ⟨⟨200, 130, 65, 467/5, 1429/10, 327/5, "At Risk", "Excellent",
        "Critical", "S04", "Critical Revenue / Critical Labor", "Critical"⟩,
        "api"⟩ :=
  ⟨by norm_num,
    (c9_api_failure_falls_back_to_local 100000 500 65000 140 85 (by norm_num)
      (by norm_num) (by norm_num) (by norm_num) (by norm_num)).1.2,
    (c9_api_failure_falls_back_to_local 100000 500 65000 140 85 (by norm_num)
      (by norm_num) (by norm_num) (by norm_num) (by norm_num)).2 _⟩

end VVI
